import Mathlib

/-!
A shallow embedding of the `Store` class of `src/store.ts` (the current
version of the module, i.e. the second snapshot in the file, whose `get`
is at lines 580-608, `set` at 615-666, `on` at 673-699, `buildAtom` at
862-1057, `updateAtomState` at 1060-1091, `invalidateAtom` at 1093-1101,
`propagateChanges` at 1167-1173, `maybeTeardownAtom` at 1124-1152,
`createFamilyInstance` at 756-820 and `resolveAtomInstance` at 835-860).

Modelling conventions:
* JS `symbol` identity tokens (atom ids, promise handles) are `Nat`.
* Values are `Nat`; the JS `undefined` appearing in value/promise/error
  slots is `Option.none`.
* Subscriber callbacks are opaque ids; every invocation of a callback is
  appended to a notification log (`Store.log`), so "the subscriber was
  called with (value, error)" is an observable fact of the model.
* A JS `Set` is a duplicate-free insertion-ordered list: `add` appends if
  absent, `delete` filters, `forEach` folds in order.  A JS `Map` is an
  association list with in-place replacement on `set`.
* User build functions are embedded as a small expression language
  (`BExp`/`Body`) whose only capability is the `get` closure handed to
  the build function, exactly as in `buildAtom`'s internal getter; a
  family initializer is a function from the parameter tuple to the
  member's initializer (the restricted temporary context passed by
  `createFamilyInstance` is advertised as a discouraged no-op in the
  source and is not consulted by any initializer we consider).
* Family parameter keys (`JSON.stringify(params)`) are modelled by the
  parameter tuple itself (a `List Nat`), on which the serialization is
  injective, so "same JSON serialization" coincides with equality.
* The mutually recursive store routines are packaged in a single
  fuel-indexed interpreter `exec`; fuel is an artifact of the embedding
  (every recursive call decrements it) and all concrete runs use ample
  fuel.  Asynchronous completion is modelled by the four standalone
  handler functions (`promiseResolve`/`promiseReject` for the
  `result instanceof Promise` branch, `thenableResolve`/`thenableReject`
  for the thenable branch), which the host event loop would invoke later.
-/

namespace Atoma

/-- Atom instance identifiers (JS `symbol`). -/
abbrev AtomId := Nat

/-- Subscriber callback identifiers (callbacks are opaque, invocations are logged). -/
abbrev SubId := Nat

/-- Promise / thenable handle identifiers (JS object identity of the promise). -/
abbrev PromId := Nat

/-- A family parameter tuple; stands for the `JSON.stringify` key, on which
serialization is injective for tuples of numbers. -/
abbrev Param := List Nat

/-- The `AtomState` union type of `types.ts`. -/
inductive AState where
  | idle
  | building
  | valid
  | error
  | pending
  | dirty
deriving DecidableEq, Repr

/-- The errors the store can throw or cache.  JS compares errors by object
identity; the constructors below carry enough data that structural equality
coincides with identity in every scenario considered. -/
inductive Err where
  | circular (path : List AtomId)
  | userErr (code : Nat)
  | cannotSetDescriptor
  | cannotSetModel
  | cannotSetFamilyTemplate (aid : AtomId)
  | cannotSetReadOnly (aid : AtomId)
  | couldNotResolve (aid : AtomId)
  | depCouldNotResolve (aid : AtomId)
  | thrownPromise (pid : PromId)
  | internalFamilyBuild (aid : AtomId)
  | outOfFuel
deriving DecidableEq, Repr

mutual

/-- Pure part of a user build function: arithmetic over values obtained
through the `get` closure that `buildAtom` passes to the build function. -/
inductive BExp where
  | const (n : Nat)
  | getDep (t : Target)
  | add (e₁ e₂ : BExp)
  | mul (e₁ e₂ : BExp)
  | ifPos (c : BExp) (t e : BExp)
  | throwE (code : Nat)

/-- The shape of a build function's result, matching the result
classification in `buildAtom`: a synchronous value, `undefined`, a fresh
`Promise`, or a fresh non- Promise thenable. -/
inductive Body where
  | sync (e : BExp)
  | retUndef
  | retPromise
  | retThenable

/-- An `AtomInitializer` (`types.ts`): a static value, a function of arity
at most 1 (computed), a function of arity above 1 (a family initializer),
a `{build, actions}` model object, or a `{get, set}` writable computed
object.  A writable computed's user setter is embedded as the canonical
pattern of forwarding the new value to one underlying atom via the
`set` capability of the setter context. -/
inductive Init where
  | static (v : Nat)
  | computed (b : Body)
  | familyFn (f : Param → Init)
  | model (b : Body)
  | writable (b : Body) (setTarget : AtomId)

/-- What user code may pass to `get`/`set`/`on`: a plain atom or a
`FamilyMemberAtomDescriptor` (template id, parameter tuple, family
initializer). -/
inductive Target where
  | atomT (aid : AtomId)
  | famT (tid : AtomId) (params : Param) (f : Param → Init)

end

/-- True for initializers with `typeof init === 'function'`. -/
def Init.isFunctionLike : Init → Bool
  | .computed _ => true
  | .familyFn _ => true
  | _ => false

/-- The value a non-function initializer denotes when assigned directly
(`instance._value = instance._init`); only a static initializer denotes a
model value (a model/writable object assigned as a value is unreachable,
because that fallback branch only runs in the `idle` state, which
`buildAtom` has always replaced by the time the branch is checked). -/
def Init.staticVal : Init → Option Nat
  | .static v => some v
  | _ => none

/-- One live atom instance, mirroring the internal fields of `Atom<T>` /
`InternalAtom<T>` (`types.ts` and `store.ts`). -/
structure Inst where
  _id : AtomId
  _init : Init
  _subscribers : List SubId := []
  _dependents : List AtomId := []
  _dependencies : List AtomId := []
  _value : Option Nat := none
  _promise : Option PromId := none
  _error : Option Err := none
  _streamController : Option Nat := none
  _state : Option AState := none
  _templateAtomId : Option AtomId := none
  _paramKey : Option Param := none

/-- One recorded subscriber invocation: `callback(value, error)`. -/
structure Notif where
  atom : AtomId
  sub : SubId
  value : Option Nat
  error : Option Err
deriving DecidableEq, Repr

/-- Association-list lookup (JS `Map.get`). -/
def alookup {κ α : Type} [DecidableEq κ] : List (κ × α) → κ → Option α
  | [], _ => none
  | (k', v') :: rest, k => if k' = k then some v' else alookup rest k

/-- Association-list update (JS `Map.set`): replace in place or append. -/
def aset {κ α : Type} [DecidableEq κ] : List (κ × α) → κ → α → List (κ × α)
  | [], k, v => [(k, v)]
  | (k', v') :: rest, k, v =>
      if k' = k then (k, v) :: rest else (k', v') :: aset rest k v

/-- Association-list removal (JS `Map.delete`). -/
def aremove {κ α : Type} [DecidableEq κ] (l : List (κ × α)) (k : κ) : List (κ × α) :=
  l.filter (fun p => decide (p.1 ≠ k))

/-- JS `Set.add`: append if absent (insertion order preserved). -/
def insertOnce {α : Type} [DecidableEq α] (x : α) (l : List α) : List α :=
  if x ∈ l then l else l ++ [x]

/-- JS `Set.delete`. -/
def removeAll {α : Type} [DecidableEq α] (x : α) (l : List α) : List α :=
  l.filter (fun y => decide (y ≠ x))

/-- The whole store state.  `heap` is the object graph (every atom object
that exists, keyed by id); `cacheIds` is the key set of `atomCache` —
eviction removes the id from `cacheIds` but, as in JS, the object itself
survives in the heap and is re-registered on a later resolve.  `nextId`
generates fresh symbols for family instances and `nextProm` fresh promise
handles; `log` records subscriber invocations. -/
structure Store where
  heap : List (AtomId × Inst)
  cacheIds : List AtomId
  familyCache : List (AtomId × List (Param × AtomId))
  currentlyBuilding : List AtomId
  buildStack : List AtomId
  nextId : AtomId
  nextProm : PromId
  log : List Notif

/-- Heap lookup of an instance object. -/
def Store.inst (st : Store) (aid : AtomId) : Option Inst :=
  alookup st.heap aid

/-- In-place mutation of one instance object (JS field assignment). -/
def Store.setInst (st : Store) (aid : AtomId) (f : Inst → Inst) : Store :=
  { st with heap := st.heap.map (fun p => if p.1 = aid then (p.1, f p.2) else p) }

/-- `notifySubscribers` (store.ts 1154-1165): invoke every subscriber, in
insertion order, with the current `(value, error)`. -/
def notifySubscribers (st : Store) (aid : AtomId) : Store :=
  match st.inst aid with
  | none => st
  | some i =>
      { st with log := st.log ++ i._subscribers.map (fun s => ⟨aid, s, i._value, i._error⟩) }

/-- `registerDependency` (store.ts 1109-1115). -/
def registerDependency (st : Store) (dependent dependency : AtomId) : Store :=
  let st := st.setInst dependent
    (fun d => { d with _dependencies := insertOnce dependency d._dependencies })
  st.setInst dependency
    (fun d => { d with _dependents := insertOnce dependent d._dependents })

/-- `clearDependencies` (store.ts 1117-1122): remove the atom from each old
dependency's dependents set, then reset its own dependency set. -/
def clearDependencies (st : Store) (aid : AtomId) : Store :=
  match st.inst aid with
  | none => st
  | some i =>
      let st := i._dependencies.foldl
        (fun st dep => st.setInst dep
          (fun d => { d with _dependents := removeAll aid d._dependents })) st
      st.setInst aid (fun a => { a with _dependencies := [] })

/-- `createFamilyInstance` (store.ts 756-820): key the per-template map by
the parameter tuple, on hit return the cached instance, on miss run the
family initializer to obtain the member initializer and register a fresh
idle instance in both the per-template map and the global cache. -/
def createFamilyInstance (st : Store) (tid : AtomId) (params : Param)
    (f : Param → Init) : Store × AtomId :=
  let fam := (alookup st.familyCache tid).getD []
  match alookup fam params with
  | some iid => (st, iid)
  | none =>
      let iid := st.nextId
      let inst : Inst :=
        { _id := iid, _init := f params, _state := some .idle,
          _templateAtomId := some tid, _paramKey := some params }
      ({ st with
          heap := aset st.heap iid inst,
          familyCache := aset st.familyCache tid (aset fam params iid),
          cacheIds := insertOnce iid st.cacheIds,
          nextId := iid + 1 }, iid)

/-- `resolveAtomInstance` (store.ts 835-860): descriptors go through
`createFamilyInstance`; a plain atom is returned from the cache when
present, otherwise its state is initialized to `idle` when still undefined
and it is (re-)registered in the cache. -/
def resolveTarget (st : Store) (t : Target) : Store × AtomId :=
  match t with
  | .famT tid params f => createFamilyInstance st tid params f
  | .atomT aid =>
      if aid ∈ st.cacheIds then (st, aid)
      else
        let st := st.setInst aid
          (fun i => if i._state = none then { i with _state := some .idle } else i)
        ({ st with cacheIds := insertOnce aid st.cacheIds }, aid)

/-- The operations of the mutually recursive part of the store. -/
inductive Op where
  | build (aid : AtomId)
  | runBody (aid : AtomId) (b : Body)
  | evalE (self : AtomId) (e : BExp)
  | depGet (self : AtomId) (t : Target)
  | update (aid : AtomId) (value : Option Nat) (promise : Option PromId) (error : Option Err)
  | invalidate (aid : AtomId)
  | propagateInv (aid : AtomId)
  | propagate (aid : AtomId)
  | getOp (t : Target)
  | setOp (t : Target) (v : Nat)
  | onOp (t : Target) (s : SubId)

/-- Fuel-indexed interpreter for the mutually recursive store routines of
store.ts; each equation is a line-by-line transcription of the routine it
names (see the comments).  A returned `Except.error` is an exception
escaping the routine; `Except.ok` carries `get`'s value when there is one. -/
def exec : Nat → Op → Store → Store × Except Err (Option Nat)
  | 0, _, st => (st, .error .outOfFuel)
  | fuel+1, op, st =>
    match op with
    -- invalidateAtom (1093-1101)
    | .invalidate aid =>
      match st.inst aid with
      | none => (st, .ok none)
      | some i =>
        if i._state = some .dirty then (st, .ok none)
        else
          let st := st.setInst aid (fun a =>
            { a with _state := some .dirty, _value := none, _promise := none, _error := none })
          exec fuel (.propagateInv aid) st
    -- propagateInvalidation (1103-1107)
    | .propagateInv aid =>
      match st.inst aid with
      | none => (st, .ok none)
      | some i =>
        (i._dependents.foldl (fun st d => (exec fuel (.invalidate d) st).1) st, .ok none)
    -- propagateChanges (1167-1173): invalidate every dependent (no rebuild)
    | .propagate aid =>
      match st.inst aid with
      | none => (st, .ok none)
      | some i =>
        (i._dependents.foldl (fun st d => (exec fuel (.invalidate d) st).1) st, .ok none)
    -- updateAtomState (1060-1091)
    | .update aid value promise error =>
      match st.inst aid with
      | none => (st, .ok none)
      | some i =>
        let valueChanged := value.isSome && decide (i._value ≠ value)
        let errorChanged := decide (i._error ≠ error)
        let newState : AState :=
          if error.isSome then .error
          else if promise.isSome then .pending
          else if value.isSome then .valid
          else .idle
        let stateChanged := decide (i._state ≠ some newState)
        let st := st.setInst aid (fun a =>
          { a with _value := value, _error := error, _state := some newState, _promise := none })
        if valueChanged || errorChanged || stateChanged then
          let st := notifySubscribers st aid
          if valueChanged || errorChanged then exec fuel (.propagate aid) st
          else (st, .ok none)
        else (st, .ok none)
    -- buildAtom (862-1057)
    | .build aid =>
      if aid ∈ st.currentlyBuilding then
        (st, .error (.circular (st.buildStack ++ [aid])))
      else
        let st := st.setInst aid (fun a => { a with _state := some .building })
        let st := { st with
          currentlyBuilding := insertOnce aid st.currentlyBuilding,
          buildStack := st.buildStack ++ [aid] }
        let st := clearDependencies st aid
        let st := st.setInst aid (fun a => { a with _promise := none, _error := none })
        -- try block (879-1048): dispatch on the initializer shape
        let res : Store × Except Err (Option Nat) :=
          match st.inst aid with
          | none => (st, Except.ok (Option.none (α := Nat)))
          | some i =>
            match i._init with
            | .familyFn _ => (st, Except.error (.internalFamilyBuild aid))
            | .static v =>
              -- no buildFn: newValue = init (1039-1040), then the
              -- synchronous-result update (1046-1048)
              if (i._streamController).isNone
              then exec fuel (.update aid (some v) none none) st
              else (st, Except.ok none)
            | .computed b => exec fuel (.runBody aid b) st
            | .model b => exec fuel (.runBody aid b) st
            | .writable b _ => exec fuel (.runBody aid b) st
        -- catch (1050-1052)
        let st :=
          match res with
          | (st, .error e) => (exec fuel (.update aid none none (some e)) st).1
          | (st, .ok _) => st
        -- finally (1053-1056)
        let st := { st with
          currentlyBuilding := removeAll aid st.currentlyBuilding,
          buildStack := st.buildStack.dropLast }
        (st, .ok none)
    -- execution of the build function and classification of its result
    -- (929-1048)
    | .runBody aid b =>
      match b with
      | .sync e =>
        let r := exec fuel (.evalE aid e) st
        match r with
        | (st, .error err) => (st, .error err)
        | (st, .ok v) =>
          -- synchronous result: the guard of line 1046
          match st.inst aid with
          | none => (st, .ok none)
          | some i =>
            if v.isSome && (i._streamController).isNone
            then exec fuel (.update aid v none none) st
            else (st, .ok none)
      | .retUndef =>
        -- `newValue` stays undefined, so the guard of line 1046 fails and
        -- no state update happens at all
        (st, .ok none)
      | .retPromise =>
        -- result instanceof Promise (966-969): store the fresh handle,
        -- enter `pending`; the completion callbacks are `promiseResolve`
        -- and `promiseReject` below
        let pid := st.nextProm
        let st := { st with nextProm := pid + 1 }
        let st := st.setInst aid (fun a =>
          { a with _promise := some pid, _state := some .pending })
        (st, .ok none)
      | .retThenable =>
        -- other thenables (1024-1027): same immediate effect, with the
        -- `thenableResolve`/`thenableReject` completion callbacks
        let pid := st.nextProm
        let st := { st with nextProm := pid + 1 }
        let st := st.setInst aid (fun a =>
          { a with _promise := some pid, _state := some .pending })
        (st, .ok none)
    -- evaluation of the pure part of a build function; `get` calls go
    -- through `depGet`
    | .evalE self e =>
      match e with
      | .const n => (st, .ok (some n))
      | .throwE c => (st, .error (.userErr c))
      | .getDep t => exec fuel (.depGet self t) st
      | .add e₁ e₂ =>
        match exec fuel (.evalE self e₁) st with
        | (st, .error err) => (st, .error err)
        | (st, .ok v₁) =>
          match exec fuel (.evalE self e₂) st with
          | (st, .error err) => (st, .error err)
          | (st, .ok v₂) => (st, .ok (some (v₁.getD 0 + v₂.getD 0)))
      | .mul e₁ e₂ =>
        match exec fuel (.evalE self e₁) st with
        | (st, .error err) => (st, .error err)
        | (st, .ok v₁) =>
          match exec fuel (.evalE self e₂) st with
          | (st, .error err) => (st, .error err)
          | (st, .ok v₂) => (st, .ok (some (v₁.getD 0 * v₂.getD 0)))
      | .ifPos c t e =>
        match exec fuel (.evalE self c) st with
        | (st, .error err) => (st, .error err)
        | (st, .ok vc) =>
          if 0 < vc.getD 0 then exec fuel (.evalE self t) st
          else exec fuel (.evalE self e) st
    -- the internal getter of buildAtom (901-921)
    | .depGet self t =>
      let r := resolveTarget st t
      let st := r.1
      let dep := r.2
      let st := registerDependency st self dep
      let built : Store × Except Err (Option Nat) :=
        match st.inst dep with
        | some d =>
          if d._state = some .idle ∨ d._state = some .dirty
          then exec fuel (.build dep) st
          else (st, Except.ok (Option.none (α := Nat)))
        | none => (st, Except.ok none)
      match built with
      | (st, .error e) => (st, .error e)
      | (st, .ok _) =>
        if dep ∈ st.currentlyBuilding then
          (st, .error (.circular (st.buildStack ++ [dep])))
        else
          match st.inst dep with
          | none => (st, .error (.depCouldNotResolve dep))
          | some d =>
            match d._error with
            | some e => (st, .error e)
            | none =>
              match d._promise with
              | some p => (st, .error (.thrownPromise p))
              | none =>
                if d._state = some .valid ∧ d._value.isSome then (st, .ok d._value)
                else if d._state = some .idle ∧ ¬ d._init.isFunctionLike then
                  match d._init.staticVal with
                  | some v =>
                    let st := st.setInst dep (fun a =>
                      { a with _value := some v, _state := some .valid })
                    (st, .ok (some v))
                  | none => (st, .error (.depCouldNotResolve dep))
                else (st, .error (.depCouldNotResolve dep))
    -- get (580-608)
    | .getOp t =>
      let r := resolveTarget st t
      let st := r.1
      let aid := r.2
      let st :=
        match st.buildStack.getLast? with
        | some dependent => registerDependency st dependent aid
        | none => st
      let built : Store × Except Err (Option Nat) :=
        match st.inst aid with
        | some i =>
          if i._state = some .idle ∨ i._state = some .dirty
          then exec fuel (.build aid) st
          else (st, Except.ok (Option.none (α := Nat)))
        | none => (st, Except.ok none)
      match built with
      | (st, .error e) => (st, .error e)
      | (st, .ok _) =>
        match st.inst aid with
        | none => (st, .error (.couldNotResolve aid))
        | some i =>
          match i._error with
          | some e => (st, .error e)
          | none =>
            if i._state = some .valid ∧ i._value.isSome then (st, .ok i._value)
            else
              match i._state, i._promise with
              | some .pending, some p => (st, .error (.thrownPromise p))
              | _, _ =>
                if i._value.isSome then (st, .ok i._value)
                else if i._state = some .idle ∧ ¬ i._init.isFunctionLike then
                  match i._init.staticVal with
                  | some v =>
                    let st := st.setInst aid (fun a =>
                      { a with _value := some v, _state := some .valid })
                    (st, .ok (some v))
                  | none => (st, .error (.couldNotResolve aid))
                else (st, .error (.couldNotResolve aid))
    -- set (615-666)
    | .setOp t v =>
      match t with
      | .famT _ _ _ => (st, .error .cannotSetDescriptor)
      | .atomT a =>
        let r := resolveTarget st (.atomT a)
        let st := r.1
        let aid := r.2
        match st.inst aid with
        | none => (st, .ok none)
        | some i =>
          match i._init with
          | .model _ => (st, .error .cannotSetModel)
          | .writable _ setTarget =>
            -- the user setter runs with a context exposing nested get/set
            -- (629-640); its embedded behavior forwards to `setTarget`
            exec fuel (.setOp (.atomT setTarget) v) st
          | .familyFn _ =>
            if i._templateAtomId = none then (st, .error (.cannotSetFamilyTemplate aid))
            else (st, .error (.cannotSetReadOnly aid))
          | .computed _ => (st, .error (.cannotSetReadOnly aid))
          | .static _ =>
            -- plain static instance (652-666)
            if i._value = some v then (st, .ok none)
            else
              let st := st.setInst aid (fun a =>
                { a with _value := some v, _promise := none, _error := none,
                         _state := some .valid })
              let st := notifySubscribers st aid
              exec fuel (.propagate aid) st
    -- on (673-699), up to returning the unsubscribe closure
    | .onOp t s =>
      let r := resolveTarget st t
      let st := r.1
      let aid := r.2
      let st := st.setInst aid (fun a =>
        { a with _subscribers := insertOnce s a._subscribers })
      match st.inst aid with
      | none => (st, .ok none)
      | some i =>
        if i._state = some .idle then exec fuel (.build aid) st
        else if i._state = some .valid ∨ i._state = some .error then
          ({ st with log := st.log ++ [⟨aid, s, i._value, i._error⟩] }, .ok none)
        else (st, .ok none)

/-- `buildAtom` entry point. -/
def buildAtom (fuel : Nat) (st : Store) (aid : AtomId) : Store × Except Err (Option Nat) :=
  exec fuel (.build aid) st

/-- `store.get` entry point. -/
def storeGet (fuel : Nat) (st : Store) (t : Target) : Store × Except Err (Option Nat) :=
  exec fuel (.getOp t) st

/-- `store.set` entry point. -/
def storeSet (fuel : Nat) (st : Store) (t : Target) (v : Nat) : Store × Except Err (Option Nat) :=
  exec fuel (.setOp t v) st

/-- `store.on` entry point. -/
def storeOn (fuel : Nat) (st : Store) (t : Target) (s : SubId) : Store × Except Err (Option Nat) :=
  exec fuel (.onOp t s) st

/-- `invalidateAtom` entry point (reached from a build context's
`invalidate` capability). -/
def invalidateAtom (fuel : Nat) (st : Store) (aid : AtomId) : Store :=
  (exec fuel (.invalidate aid) st).1

/-- `maybeTeardownAtom` (1124-1152): with no subscribers and no dependents,
abort streams, clear edges, evict from the atom cache and (for family
members) from the per-template map, dropping the template's map entirely
when it becomes empty. -/
def maybeTeardownAtom (st : Store) (aid : AtomId) : Store :=
  match st.inst aid with
  | none => st
  | some i =>
    if i._subscribers = [] ∧ i._dependents = [] then
      let st := st.setInst aid (fun a => { a with _streamController := none })
      let st := clearDependencies st aid
      let st := { st with cacheIds := removeAll aid st.cacheIds }
      match i._templateAtomId, i._paramKey with
      | some tid, some key =>
        match alookup st.familyCache tid with
        | none => st
        | some fam =>
          let fam' := aremove fam key
          if fam' = [] then { st with familyCache := aremove st.familyCache tid }
          else { st with familyCache := aset st.familyCache tid fam' }
      | _, _ => st
    else st

/-- The unsubscribe closure returned by `on` (689-698): remove the
callback and, when the subscriber set became empty, try teardown. -/
def unsubscribe (st : Store) (aid : AtomId) (s : SubId) : Store :=
  match st.inst aid with
  | none => st
  | some i =>
    let subs := removeAll s i._subscribers
    let st := st.setInst aid (fun a => { a with _subscribers := subs })
    if subs = [] then maybeTeardownAtom st aid else st

/-- The `.then` callback of the `result instanceof Promise` branch
(970-976): update only when the completed handle is still the stored one. -/
def promiseResolve (fuel : Nat) (st : Store) (aid : AtomId) (pid : PromId) (v : Nat) : Store :=
  match st.inst aid with
  | none => st
  | some i =>
    if i._promise = some pid then
      let st := st.setInst aid (fun a => { a with _promise := none })
      (exec fuel (.update aid (some v) none none) st).1
    else st

/-- The `.catch` callback of the `result instanceof Promise` branch
(977-982): the guard only checks that the instance is still in the atom
cache ("Check if torn down") — it does not compare the completed handle
with the stored one. -/
def promiseReject (fuel : Nat) (st : Store) (aid : AtomId) (_pid : PromId) (e : Err) : Store :=
  if aid ∈ st.cacheIds then
    let st := st.setInst aid (fun a => { a with _promise := none })
    (exec fuel (.update aid none none (some e)) st).1
  else st

/-- The `.then` callback of the thenable branch (1028-1029): update only
when the completed handle is still the stored one. -/
def thenableResolve (fuel : Nat) (st : Store) (aid : AtomId) (pid : PromId) (v : Nat) : Store :=
  match st.inst aid with
  | none => st
  | some i =>
    if i._promise = some pid then (exec fuel (.update aid (some v) none none) st).1
    else st

/-- The `.catch` callback of the thenable branch (1030-1034): requires both
cache membership and handle identity. -/
def thenableReject (fuel : Nat) (st : Store) (aid : AtomId) (pid : PromId) (e : Err) : Store :=
  match st.inst aid with
  | none => st
  | some i =>
    if aid ∈ st.cacheIds ∧ i._promise = some pid
    then (exec fuel (.update aid none none (some e)) st).1
    else st

/-- A freshly constructed atom object (`atom()` in atom.ts): every internal
field undefined. -/
def freshInst (aid : AtomId) (i : Init) : Inst :=
  { _id := aid, _init := i }

/-- A fresh store whose heap holds the given user-created atom objects
(none of them resolved yet).  User atom ids in scenarios stay below 1000,
so ids generated for family instances never collide. -/
def mkStore (atoms : List (AtomId × Init)) : Store :=
  { heap := atoms.map (fun p => (p.1, freshInst p.1 p.2)),
    cacheIds := [], familyCache := [], currentlyBuilding := [], buildStack := [],
    nextId := 1000, nextProm := 0, log := [] }

/-! ### Scenario configurations used by the claim theorems -/

/-- C1 scenario: static `count = 0` (id 0) and computed `double` (id 1)
whose build function returns `get(count) * 2`. -/
def c1Store : Store :=
  mkStore [(0, .static 0), (1, .computed (.sync (.mul (.getDep (.atomT 0)) (.const 2))))]

/-- C1: first `get(double)`. -/
def c1Run1 : Store × Except Err (Option Nat) := storeGet 30 c1Store (.atomT 1)

/-- C1: `set(count, 5)`. -/
def c1Run2 : Store × Except Err (Option Nat) := storeSet 30 c1Run1.1 (.atomT 0) 5

/-- C1: second `get(double)`. -/
def c1Run3 : Store × Except Err (Option Nat) := storeGet 30 c1Run2.1 (.atomT 1)

/-- C2 scenario: same shape as C1, but `double` carries subscriber 7 when
`set(count, 5)` runs. -/
def c2Store : Store :=
  mkStore [(0, .static 0), (1, .computed (.sync (.mul (.getDep (.atomT 0)) (.const 2))))]

/-- C2: after the initial `get(double)` (value 0). -/
def c2AfterGet : Store := (storeGet 30 c2Store (.atomT 1)).1

/-- C2: after `on(double, 7)` (replays the current value to subscriber 7). -/
def c2AfterOn : Store := (storeOn 30 c2AfterGet (.atomT 1) 7).1

/-- C2: the `set(count, 5)` call. -/
def c2SetR : Store × Except Err (Option Nat) := storeSet 30 c2AfterOn (.atomT 0) 5

/-- C2: the store once `set` has returned. -/
def c2AfterSet : Store := c2SetR.1

/-- C2: the next `get(double)` after the `set`. -/
def c2AfterGet2 : Store × Except Err (Option Nat) := storeGet 30 c2AfterSet (.atomT 1)

/-- C3 direct cycle: atom 0 reads atom 1 and atom 1 reads atom 0. -/
def c3DirectStore : Store :=
  mkStore [(0, .computed (.sync (.add (.getDep (.atomT 1)) (.const 1)))),
           (1, .computed (.sync (.add (.getDep (.atomT 0)) (.const 1))))]

/-- C3 indirect cycle: atom 0 reads 1, atom 1 reads 2, atom 2 reads 0. -/
def c3IndirectStore : Store :=
  mkStore [(0, .computed (.sync (.add (.getDep (.atomT 1)) (.const 1)))),
           (1, .computed (.sync (.add (.getDep (.atomT 2)) (.const 1)))),
           (2, .computed (.sync (.add (.getDep (.atomT 0)) (.const 1))))]

/-- C4 family initializer: parameter `p` yields the static value `p + 100`. -/
def c4FamFn : Param → Init := fun p => .static (p.headD 0 + 100)

/-- C4: the family member descriptor for template 5 with parameter `[3]`. -/
def c4FamT : Target := .famT 5 [3] c4FamFn

/-- C4 family run: first `get` (creates instance 1000, value 103). -/
def c4F1 : Store × Except Err (Option Nat) := storeGet 30 (mkStore []) c4FamT

/-- C4 family run: subscribe callback 1. -/
def c4F2 : Store := (storeOn 30 c4F1.1 c4FamT 1).1

/-- C4 family run: unsubscribe the last subscriber (triggers teardown). -/
def c4F3 : Store := unsubscribe c4F2 1000 1

/-- C4 family run: resolve the same parameter again after teardown. -/
def c4F4 : Store × AtomId := resolveTarget c4F3 c4FamT

/-- C4 regular run: `get` on static atom 0 (value 0). -/
def c4R1 : Store := (storeGet 30 (mkStore [(0, .static 0)]) (.atomT 0)).1

/-- C4 regular run: `set(atom, 5)`. -/
def c4R2 : Store := (storeSet 30 c4R1 (.atomT 0) 5).1

/-- C4 regular run: subscribe callback 1. -/
def c4R3 : Store := (storeOn 30 c4R2 (.atomT 0) 1).1

/-- C4 regular run: unsubscribe the last subscriber (triggers teardown and
cache eviction). -/
def c4R4 : Store := unsubscribe c4R3 0 1

/-- C4 regular run: `get` on the same atom after the teardown. -/
def c4R5 : Store × Except Err (Option Nat) := storeGet 30 c4R4 (.atomT 0)

/-- C5 scenario: switch (id 0), X (id 1), Y (id 2) and a computed node
(id 3) that reads X when the switch is positive and Y otherwise. -/
def c5Store : Store :=
  mkStore [(0, .static 1), (1, .static 10), (2, .static 20),
           (3, .computed (.sync (.ifPos (.getDep (.atomT 0)) (.getDep (.atomT 1)) (.getDep (.atomT 2)))))]

/-- C5: first evaluation (switch on: reads switch and X). -/
def c5G1 : Store × Except Err (Option Nat) := storeGet 30 c5Store (.atomT 3)

/-- C5: flip the switch off. -/
def c5SetR : Store × Except Err (Option Nat) := storeSet 30 c5G1.1 (.atomT 0) 0

/-- C5: the one rebuild after the switch flip (reads switch and Y). -/
def c5G2 : Store × Except Err (Option Nat) := storeGet 30 c5SetR.1 (.atomT 3)

/-- C6 family initializer: parameter `p` yields the static value `p`. -/
def c6FamFn : Param → Init := fun p => .static (p.headD 0)

/-- C6: member descriptor with parameter `[1]`. -/
def c6T1 : Target := .famT 5 [1] c6FamFn

/-- C6: member descriptor with parameter `[2]`. -/
def c6T2 : Target := .famT 5 [2] c6FamFn

/-- C6: resolve member `[1]` (creates instance 1000). -/
def c6R1 : Store × AtomId := resolveTarget (mkStore []) c6T1

/-- C6: resolve member `[2]` (creates instance 1001). -/
def c6R2 : Store × AtomId := resolveTarget c6R1.1 c6T2

/-- C6: `get` member `[1]`. -/
def c6G1 : Store × Except Err (Option Nat) := storeGet 30 c6R2.1 c6T1

/-- C6: `get` member `[2]`. -/
def c6G2 : Store × Except Err (Option Nat) := storeGet 30 c6G1.1 c6T2

/-- C6: subscribe callback 9 to member `[1]` only. -/
def c6On : Store := (storeOn 30 c6G2.1 c6T1 9).1

/-- C6: invalidate member `[1]` only. -/
def c6Inval : Store := invalidateAtom 30 c6On c6R1.2

/-- C7 witness data: a cached model-like instance. -/
def c7ModelInst : Inst :=
  { _id := 0, _init := .model (.sync (.const 1)), _state := some .valid, _value := some 1 }

/-- C7 witness data: a cached read-only computed instance. -/
def c7CompInst : Inst :=
  { _id := 1, _init := .computed (.sync (.const 2)), _state := some .valid, _value := some 2 }

/-- C7 witness data: a cached family template atom (function initializer of
arity above 1, no `_templateAtomId`). -/
def c7FamInst : Inst :=
  { _id := 2, _init := .familyFn (fun _ => .static 0), _state := some .idle }

/-- C7 witness data: a store caching the three instances above. -/
def c7Store : Store :=
  { heap := [(0, c7ModelInst), (1, c7CompInst), (2, c7FamInst)],
    cacheIds := [0, 1, 2], familyCache := [], currentlyBuilding := [], buildStack := [],
    nextId := 1000, nextProm := 0, log := [] }

/-- C8 witness data: a cached instance in state `valid` with value 4. -/
def c8ValidInst : Inst :=
  { _id := 0, _init := .static 4, _state := some .valid, _value := some 4 }

/-- C8 witness data: store caching the valid instance. -/
def c8ValidStore : Store :=
  { heap := [(0, c8ValidInst)], cacheIds := [0], familyCache := [], currentlyBuilding := [],
    buildStack := [], nextId := 1000, nextProm := 0, log := [] }

/-- C8 witness data: a cached instance in state `dirty`. -/
def c8DirtyInst : Inst :=
  { _id := 0, _init := .static 4, _state := some .dirty }

/-- C8 witness data: store caching the dirty instance. -/
def c8DirtyStore : Store :=
  { heap := [(0, c8DirtyInst)], cacheIds := [0], familyCache := [], currentlyBuilding := [],
    buildStack := [], nextId := 1000, nextProm := 0, log := [] }

/-- C8 witness data: a cached instance in state `idle`. -/
def c8IdleInst : Inst :=
  { _id := 0, _init := .static 4, _state := some .idle }

/-- C8 witness data: store caching the idle instance. -/
def c8IdleStore : Store :=
  { heap := [(0, c8IdleInst)], cacheIds := [0], familyCache := [], currentlyBuilding := [],
    buildStack := [], nextId := 1000, nextProm := 0, log := [] }

/-- C9 scenario: an async computed atom (id 0, build returns a fresh
promise). -/
def c9S0 : Store := mkStore [(0, .computed .retPromise)]

/-- C9: subscribe callback 3; the initial build stores promise handle 0 and
enters `pending`. -/
def c9S1 : Store := (storeOn 30 c9S0 (.atomT 0) 3).1

/-- C9: the instance invalidates (as a build context `invalidate` call
would), clearing the stored handle. -/
def c9S2 : Store := invalidateAtom 30 c9S1 0

/-- C9: the next `get` rebuilds, storing the new promise handle 1. -/
def c9S3 : Store := (storeGet 30 c9S2 (.atomT 0)).1

/-- C9: the superseded promise (handle 0) now rejects. -/
def c9Rejected : Store := promiseReject 30 c9S3 0 0 (.userErr 7)

/-- C9 witness data: a cached-free instance whose stored handle is 1. -/
def c9WInst : Inst :=
  { _id := 0, _init := .computed .retPromise, _state := some .pending, _promise := some 1 }

/-- C9 witness data: a store holding the instance but with it evicted from
the atom cache (torn down). -/
def c9WStore : Store :=
  { heap := [(0, c9WInst)], cacheIds := [], familyCache := [], currentlyBuilding := [],
    buildStack := [], nextId := 1000, nextProm := 2, log := [] }

/-- C10 scenario: a computed atom (id 0) whose build function returns
`undefined` synchronously. -/
def c10Store : Store := mkStore [(0, .computed .retUndef)]

/-- C10: the `get` that triggers the build. -/
def c10Run : Store × Except Err (Option Nat) := storeGet 30 c10Store (.atomT 0)

/-! ### Helper lemmas -/

theorem alookup_aset {κ α : Type} [DecidableEq κ] (l : List (κ × α)) (k : κ) (v : α) :
    alookup (aset l k v) k = some v := by
  induction l with
  | nil => simp [aset, alookup]
  | cons p rest ih =>
    obtain ⟨k', v'⟩ := p
    by_cases h : k' = k
    · subst h
      simp [aset, alookup]
    · simp [aset, h, alookup, ih]

theorem alookup_mapIf {α : Type} (l : List (AtomId × α)) (aid : AtomId) (f : α → α) :
    alookup (l.map (fun p => if p.1 = aid then (p.1, f p.2) else p)) aid
      = (alookup l aid).map f := by
  induction l with
  | nil => simp [alookup]
  | cons p rest ih =>
    obtain ⟨k, v⟩ := p
    simp only [List.map_cons]
    by_cases h : k = aid
    · subst h
      rw [if_pos rfl]
      simp [alookup, ih]
    · rw [if_neg h]
      simp [alookup, h, ih]

theorem inst_setInst_self (st : Store) (aid : AtomId) (f : Inst → Inst) :
    (st.setInst aid f).inst aid = (st.inst aid).map f :=
  alookup_mapIf st.heap aid f

theorem setInst_log (st : Store) (aid : AtomId) (f : Inst → Inst) :
    (st.setInst aid f).log = st.log := rfl

/-! ### Claim theorems -/

/-- Claim C1: for static `count = 0` and computed `double = get(count) * 2`,
`get(double)` returns 0; `set(count, 5)` marks `double` dirty; the next
`get(double)` re-evaluates it and returns 10. -/
theorem c1_count_double_scenario :
    c1Run1.2 = .ok (some 0)
    ∧ c1Run2.2 = .ok none
    ∧ (c1Run2.1.inst 1).map (fun i => i._state) = some (some .dirty)
    ∧ c1Run3.2 = .ok (some 10) :=
  ⟨rfl, rfl, rfl, rfl⟩

/-- Claim C2 (counterexample): with subscriber 7 live on the dependent
`double`, `set(count, 5)` returns leaving `double` merely dirty with no
cached value, and the log still holds only the initial replay
notification — no rebuild and no notification with the recomputed value 10
happened before `set` returned, contrary to the claim. -/
theorem c2_counterexample :
    (c2AfterSet.inst 1).map (fun i => i._subscribers) = some [7]
    ∧ c2SetR.2 = .ok none
    ∧ (c2AfterSet.inst 1).map (fun i => i._state) = some (some .dirty)
    ∧ (c2AfterSet.inst 1).map (fun i => i._value) = some none
    ∧ c2AfterOn.log = [⟨1, 7, some 0, none⟩]
    ∧ c2AfterSet.log = [⟨1, 7, some 0, none⟩] :=
  ⟨rfl, rfl, rfl, rfl, rfl, rfl⟩

/-- Claim C2 (amended): a `set` that changes a static instance only marks
every dependent dirty (clearing its cached value), whether or not it has
subscribers; no dependent is rebuilt and no dependent subscriber is
notified during `set`.  The subscribed dependent is rebuilt by its next
`get`, which is when its subscriber receives the recomputed value. -/
theorem c2_amended :
    (c2AfterSet.inst 1).map (fun i => i._state) = some (some .dirty)
    ∧ (c2AfterSet.inst 1).map (fun i => i._value) = some none
    ∧ c2AfterOn.log = [⟨1, 7, some 0, none⟩]
    ∧ c2AfterSet.log = [⟨1, 7, some 0, none⟩]
    ∧ c2AfterGet2.2 = .ok (some 10)
    ∧ c2AfterGet2.1.log = [⟨1, 7, some 0, none⟩, ⟨1, 7, some 10, none⟩] :=
  ⟨rfl, rfl, rfl, rfl, rfl, rfl⟩

/-- Claim C3: evaluating the code at the claimed inputs.  For both the
direct cycle (0 reads 1, 1 reads 0) and the indirect cycle (0 reads 1,
1 reads 2, 2 reads 0), the first `get` of a participant throws the
generic `Dependency atom ... could not be resolved` error, not the
circular-dependency error with the build-stack path: the circular error is
raised and cached on the inner atom, but caching it runs
`propagateChanges`, whose invalidation cascade reaches the inner atom
again and erases the cached error before the getter rethrows it. -/
theorem c3_cycle_first_get_result :
    (storeGet 30 c3DirectStore (.atomT 0)).2 = .error (.depCouldNotResolve 1)
    ∧ (storeGet 30 c3DirectStore (.atomT 1)).2 = .error (.depCouldNotResolve 0)
    ∧ (storeGet 30 c3IndirectStore (.atomT 0)).2 = .error (.depCouldNotResolve 2)
    ∧ (storeGet 30 c3IndirectStore (.atomT 1)).2 = .error (.depCouldNotResolve 0)
    ∧ (storeGet 30 c3IndirectStore (.atomT 2)).2 = .error (.depCouldNotResolve 1) :=
  ⟨rfl, rfl, rfl, rfl, rfl⟩

/-- Claim C4 (counterexample): a plain static atom (id 0) is set to 5,
subscribed and unsubscribed; teardown evicts it from the atom cache, yet
the subsequent `get` resolves the same retained object: it is still in
state `valid` (never `idle`) and returns the stale value 5 instead of a
fresh instance's initializer value 0, contrary to the claim. -/
theorem c4_counterexample :
    c4R4.cacheIds = []
    ∧ (c4R4.inst 0).map (fun i => i._state) = some (some .valid)
    ∧ (c4R4.inst 0).map (fun i => i._value) = some (some 5)
    ∧ c4R5.2 = .ok (some 5)
    ∧ (c4R5.1.inst 0).map (fun i => i._state) = some (some .valid) :=
  ⟨rfl, rfl, rfl, rfl, rfl⟩

/-- Claim C4 (amended): once subscriber and dependent counts reach zero the
instance is evicted from the global atom cache and, for family members,
from the per-template map.  A subsequent access to the same family
parameter creates a fresh instance (a new id, state `idle`, no cached
value).  A subsequent access to a plain atom, however, re-registers the
same retained object, which keeps its previous cached value and state. -/
theorem c4_amended :
    c4F1.2 = .ok (some 103)
    ∧ (c4F1.1.inst 1000).map (fun i => i._value) = some (some 103)
    ∧ c4F3.cacheIds = []
    ∧ c4F3.familyCache = []
    ∧ c4F4.2 = 1001
    ∧ (c4F4.1.inst 1001).map (fun i => i._state) = some (some .idle)
    ∧ (c4F4.1.inst 1001).map (fun i => i._value) = some none
    ∧ c4R4.cacheIds = []
    ∧ c4R5.2 = .ok (some 5)
    ∧ (c4R5.1.inst 0).map (fun i => i._state) = some (some .valid) :=
  ⟨rfl, rfl, rfl, rfl, rfl, rfl, rfl, rfl, rfl, rfl⟩

/-- Claim C5: dependency edges reflect only the last evaluation.  While the
switch is positive, the conditional node's dependencies are exactly
{switch, X} and X's dependents contain it while Y's do not; after one
rebuild with the switch off, its dependencies are exactly {switch, Y}, X's
dependents no longer contain it and Y's do. -/
theorem c5_dependency_edges_last_evaluation :
    c5G1.2 = .ok (some 10)
    ∧ (c5G1.1.inst 3).map (fun i => i._dependencies) = some [0, 1]
    ∧ (c5G1.1.inst 1).map (fun i => i._dependents) = some [3]
    ∧ (c5G1.1.inst 2).map (fun i => i._dependents) = some []
    ∧ c5G2.2 = .ok (some 20)
    ∧ (c5G2.1.inst 3).map (fun i => i._dependencies) = some [0, 2]
    ∧ (c5G2.1.inst 1).map (fun i => i._dependents) = some []
    ∧ (c5G2.1.inst 2).map (fun i => i._dependents) = some [3] :=
  ⟨rfl, rfl, rfl, rfl, rfl, rfl, rfl, rfl⟩

/-- Claim C6: resolving a family member twice with the same parameter key
returns the identical cached instance and leaves the store untouched (for
every store, template, parameter and initializer); members with different
parameters are distinct instances (ids 1000 and 1001 in the scenario)
whose cached values, subscriber sets, errors and states are independent:
subscribing to member [1] leaves member [2]'s subscriber set empty, and
invalidating member [1] leaves member [2] valid with its own value. -/
theorem c6_family_identity_independence :
    (∀ (st : Store) (tid : AtomId) (p : Param) (f g : Param → Init),
        createFamilyInstance (createFamilyInstance st tid p f).1 tid p g
          = createFamilyInstance st tid p f)
    ∧ c6R1.2 = 1000
    ∧ c6R2.2 = 1001
    ∧ c6G1.2 = .ok (some 1)
    ∧ c6G2.2 = .ok (some 2)
    ∧ (c6On.inst 1000).map (fun i => i._subscribers) = some [9]
    ∧ (c6On.inst 1001).map (fun i => i._subscribers) = some []
    ∧ (c6Inval.inst 1000).map (fun i => i._state) = some (some .dirty)
    ∧ (c6Inval.inst 1001).map (fun i => i._state) = some (some .valid)
    ∧ (c6Inval.inst 1001).map (fun i => i._value) = some (some 2)
    ∧ (c6Inval.inst 1001).map (fun i => i._error) = some none := by
  refine ⟨?_, rfl, rfl, rfl, rfl, rfl, rfl, rfl, rfl, rfl, rfl⟩
  intro st tid p f g
  unfold createFamilyInstance
  cases h : alookup ((alookup st.familyCache tid).getD []) p with
  | some iid => simp [h]
  | none => simp [h, alookup_aset]

/-- Claim C7: `set` on a cached model-like atom, read-only computed atom,
or family template atom throws the corresponding invalid-operation error
and returns the store completely unchanged — no value, error or state
change, no notification, no invalidation. -/
theorem c7_set_invalid_operation (fuel : Nat) (st : Store) (aid : AtomId) (v : Nat) (i : Inst)
    (hc : aid ∈ st.cacheIds) (hi : st.inst aid = some i) :
    (∀ b, i._init = .model b →
       storeSet (fuel+1) st (.atomT aid) v = (st, .error .cannotSetModel))
    ∧ (∀ b, i._init = .computed b →
       storeSet (fuel+1) st (.atomT aid) v = (st, .error (.cannotSetReadOnly aid)))
    ∧ (∀ f, i._init = .familyFn f → i._templateAtomId = none →
       storeSet (fuel+1) st (.atomT aid) v = (st, .error (.cannotSetFamilyTemplate aid))) := by
  refine ⟨?_, ?_, ?_⟩
  · intro b hib
    simp [storeSet, exec, resolveTarget, hc, hi, hib]
  · intro b hib
    simp [storeSet, exec, resolveTarget, hc, hi, hib]
  · intro f hib htid
    simp [storeSet, exec, resolveTarget, hc, hi, hib, htid]

/-- Claim C7 witness: the theorem applied to a concrete store with a
cached model atom (id 0), read-only computed atom (id 1) and family
template atom (id 2). -/
theorem c7_set_invalid_operation_witness :
    storeSet 5 c7Store (.atomT 0) 9 = (c7Store, .error .cannotSetModel)
    ∧ storeSet 5 c7Store (.atomT 1) 9 = (c7Store, .error (.cannotSetReadOnly 1))
    ∧ storeSet 5 c7Store (.atomT 2) 9 = (c7Store, .error (.cannotSetFamilyTemplate 2)) :=
  ⟨(c7_set_invalid_operation 4 c7Store 0 9 c7ModelInst (by decide) rfl).1 _ rfl,
   (c7_set_invalid_operation 4 c7Store 1 9 c7CompInst (by decide) rfl).2.1 _ rfl,
   (c7_set_invalid_operation 4 c7Store 2 9 c7FamInst (by decide) rfl).2.2 _ rfl rfl⟩

/-- Claim C8: `on` always adds the callback to the instance's subscriber
set; when the instance is `idle` it defers to `buildAtom` (which performs
the evaluation and will itself notify); when it is `valid` or in `error`
it immediately appends exactly one invocation of the new callback with the
current value/error to the log without rebuilding; when it is `pending`,
`building` or `dirty` the callback is not invoked immediately and nothing
else changes. -/
theorem c8_on_subscribe_behavior (fuel : Nat) (st : Store) (aid : AtomId) (s : SubId) (i : Inst)
    (hc : aid ∈ st.cacheIds) (hi : st.inst aid = some i) :
    (i._state = some .idle →
       storeOn (fuel+1) st (.atomT aid) s
         = exec fuel (.build aid)
             (st.setInst aid (fun a => { a with _subscribers := insertOnce s a._subscribers })))
    ∧ ((i._state = some .valid ∨ i._state = some .error) →
       storeOn (fuel+1) st (.atomT aid) s
         = ({ st.setInst aid (fun a => { a with _subscribers := insertOnce s a._subscribers }) with
              log := st.log ++ [⟨aid, s, i._value, i._error⟩] }, .ok none))
    ∧ ((i._state = some .pending ∨ i._state = some .building ∨ i._state = some .dirty) →
       storeOn (fuel+1) st (.atomT aid) s
         = (st.setInst aid (fun a => { a with _subscribers := insertOnce s a._subscribers }),
            .ok none)) := by
  refine ⟨?_, ?_, ?_⟩
  · intro hs
    simp [storeOn, exec, resolveTarget, hc, inst_setInst_self, hi, hs]
  · rintro (hs | hs) <;>
      simp [storeOn, exec, resolveTarget, hc, inst_setInst_self, hi, hs, setInst_log]
  · rintro (hs | hs | hs) <;>
      simp [storeOn, exec, resolveTarget, hc, inst_setInst_self, hi, hs]

/-- Claim C8 witness: the theorem applied to concrete one-atom stores in
state `valid` (immediate replay of value 4 to callback 5), state `dirty`
(no immediate invocation) and state `idle` (deferred to `buildAtom`). -/
theorem c8_on_subscribe_behavior_witness :
    storeOn 6 c8ValidStore (.atomT 0) 5
      = ({ c8ValidStore.setInst 0 (fun a => { a with _subscribers := insertOnce 5 a._subscribers }) with
           log := c8ValidStore.log ++ [⟨0, 5, some 4, none⟩] }, .ok none)
    ∧ storeOn 6 c8DirtyStore (.atomT 0) 5
      = (c8DirtyStore.setInst 0 (fun a => { a with _subscribers := insertOnce 5 a._subscribers }),
         .ok none)
    ∧ storeOn 6 c8IdleStore (.atomT 0) 5
      = exec 5 (.build 0)
          (c8IdleStore.setInst 0 (fun a => { a with _subscribers := insertOnce 5 a._subscribers })) :=
  ⟨(c8_on_subscribe_behavior 5 c8ValidStore 0 5 c8ValidInst (by decide) rfl).2.1 (Or.inl rfl),
   (c8_on_subscribe_behavior 5 c8DirtyStore 0 5 c8DirtyInst (by decide) rfl).2.2
     (Or.inr (Or.inr rfl)),
   (c8_on_subscribe_behavior 5 c8IdleStore 0 5 c8IdleInst (by decide) rfl).1 rfl⟩

/-- Claim C9 (counterexample): instance 0 was rebuilt, so its current
promise handle is 1 and the earlier handle 0 is stale; yet when the stale
promise rejects, the instance — still cached — moves from `pending` to
`error`, caches the stale error and notifies subscriber 3, contrary to the
claim that a stale rejection is dropped. -/
theorem c9_counterexample :
    (c9S3.inst 0).map (fun i => i._promise) = some (some 1)
    ∧ (c9S3.inst 0).map (fun i => i._state) = some (some .pending)
    ∧ c9S3.log = []
    ∧ (c9Rejected.inst 0).map (fun i => i._state) = some (some .error)
    ∧ (c9Rejected.inst 0).map (fun i => i._error) = some (some (.userErr 7))
    ∧ c9Rejected.log = [⟨0, 3, none, some (.userErr 7)⟩] :=
  ⟨rfl, rfl, rfl, rfl, rfl, rfl⟩

/-- Claim C9 (amended): a completion whose handle is no longer the stored
one never updates the instance for the promise resolution path, the
thenable resolution path and the thenable rejection path; the promise
rejection path, by contrast, only checks that the instance is still in the
atom cache, so it drops the rejection exactly when the instance has been
torn down (evicted), while a stale rejection on a still-cached instance
does update state (see the counterexample). -/
theorem c9_stale_completion_guards (fuel : Nat) (st : Store) (aid : AtomId) (pid : PromId)
    (v : Nat) (e : Err) (i : Inst)
    (hi : st.inst aid = some i) (hstale : i._promise ≠ some pid) :
    promiseResolve fuel st aid pid v = st
    ∧ thenableResolve fuel st aid pid v = st
    ∧ thenableReject fuel st aid pid e = st
    ∧ (aid ∉ st.cacheIds → promiseReject fuel st aid pid e = st) := by
  refine ⟨?_, ?_, ?_, ?_⟩
  · simp [promiseResolve, hi, hstale]
  · simp [thenableResolve, hi, hstale]
  · simp [thenableReject, hi, hstale]
  · intro hnc
    simp [promiseReject, hnc]

/-- Claim C9 witness: the theorem applied to a concrete torn-down instance
whose stored handle is 1 while handle 0 completes. -/
theorem c9_stale_completion_guards_witness :
    promiseResolve 5 c9WStore 0 0 42 = c9WStore
    ∧ thenableResolve 5 c9WStore 0 0 42 = c9WStore
    ∧ thenableReject 5 c9WStore 0 0 (.userErr 1) = c9WStore
    ∧ promiseReject 5 c9WStore 0 0 (.userErr 1) = c9WStore :=
  ⟨(c9_stale_completion_guards 5 c9WStore 0 0 42 (.userErr 1) c9WInst rfl (by decide)).1,
   (c9_stale_completion_guards 5 c9WStore 0 0 42 (.userErr 1) c9WInst rfl (by decide)).2.1,
   (c9_stale_completion_guards 5 c9WStore 0 0 42 (.userErr 1) c9WInst rfl (by decide)).2.2.1,
   (c9_stale_completion_guards 5 c9WStore 0 0 42 (.userErr 1) c9WInst rfl (by decide)).2.2.2
     (by decide)⟩

/-- Claim C10: `get` can never produce the value `undefined` (for every
fuel, store and target); and in the concrete scenario whose build function
returns `undefined` synchronously, the evaluation performs no state update
(no cached value, the state never leaves `building`, no notification) and
the `get` throws the `could not be resolved` error. -/
theorem c10_get_never_undefined :
    (∀ (fuel : Nat) (st : Store) (t : Target), (storeGet fuel st t).2 ≠ Except.ok none)
    ∧ c10Run.2 = .error (.couldNotResolve 0)
    ∧ (c10Run.1.inst 0).map (fun i => i._value) = some none
    ∧ (c10Run.1.inst 0).map (fun i => i._state) = some (some .building)
    ∧ c10Run.1.log = [] := by
  refine ⟨?_, rfl, rfl, rfl, rfl⟩
  intro fuel st t
  cases fuel with
  | zero => simp [storeGet, exec]
  | succ fuel =>
    simp only [storeGet, exec]
    repeat' split
    all_goals (try simp_all [Option.isSome_iff_exists])
    all_goals (intro hn; simp_all)

/-- Claim C10 witness: the universal part of the theorem applied at a
concrete input. -/
theorem c10_get_never_undefined_witness :
    (storeGet 30 c10Store (.atomT 0)).2 ≠ Except.ok none :=
  c10_get_never_undefined.1 30 c10Store (.atomT 0)

end Atoma
